import Mathlib

/-
Verification of the posti-delivery-dates integration core: the update
coordinator's scheduling state machine, its last-delivery reconciliation,
and the sensor's derived-view computation, embedded shallowly from the
Python sources under custom_components/ and config_flow.py.
-/

namespace Posti

/-- Calendar date as produced by datetime.strptime(d, "%Y-%m-%d").date():
year, month, day fields compared lexicographically (Python date order). -/
structure Date where
  year : Nat
  month : Nat
  day : Nat
deriving DecidableEq, Repr

/-- Python date comparison a < b: lexicographic on (year, month, day). -/
def dateLt (a b : Date) : Prop :=
  a.year < b.year ∨ (a.year = b.year ∧
    (a.month < b.month ∨ (a.month = b.month ∧ a.day < b.day)))

instance (a b : Date) : Decidable (dateLt a b) := by
  unfold dateLt; infer_instance

/-- Python date comparison a <= b. -/
def dateLe (a b : Date) : Prop :=
  dateLt a b ∨ a = b

instance (a b : Date) : Decidable (dateLe a b) := by
  unfold dateLe; infer_instance

/-- Splitting a character list at a separator, the semantics of Python
str.split("-") used to model the fixed "%Y-%m-%d" strptime pattern. -/
def splitOnChar (c : Char) : List Char → List (List Char)
  | [] => [[]]
  | x :: xs =>
    let r := splitOnChar c xs
    if x = c then [] :: r
    else
      match r with
      | [] => [[x]]
      | h :: t => (x :: h) :: t

/-- Numeric value of a run of ASCII digit characters (int() on the
captured strptime group). -/
def digitsToNat (l : List Char) : Nat :=
  l.foldl (fun acc c => acc * 10 + (c.toNat - 48)) 0

/-- All characters are ASCII decimal digits. The source dates use ASCII
digits; digit matching in the date pattern is modelled over ASCII. -/
def allAsciiDigits (l : List Char) : Bool :=
  l.all fun c => decide ('0' ≤ c) && decide (c ≤ '9')

/-- Gregorian leap-year rule used by datetime's range validation. -/
def isLeapYear (y : Nat) : Bool :=
  (y % 4 == 0 && y % 100 != 0) || y % 400 == 0

/-- Days in a month, as validated by the datetime constructor. -/
def daysInMonth (y m : Nat) : Nat :=
  if m = 2 then (if isLeapYear y then 29 else 28)
  else if m = 4 ∨ m = 6 ∨ m = 9 ∨ m = 11 then 30
  else 31

/-- Embedding of datetime.strptime(s, "%Y-%m-%d").date(): the year group
is exactly four digits, month and day groups are one or two digits, the
whole string must be consumed, and the resulting components must form a
valid calendar date; none models the ValueError raise. -/
def parseDateChars (l : List Char) : Option Date :=
  match splitOnChar '-' l with
  | [ys, ms, ds] =>
    if ys.length = 4 ∧ allAsciiDigits ys ∧
       1 ≤ ms.length ∧ ms.length ≤ 2 ∧ allAsciiDigits ms ∧
       1 ≤ ds.length ∧ ds.length ≤ 2 ∧ allAsciiDigits ds then
      let y := digitsToNat ys
      let m := digitsToNat ms
      let d := digitsToNat ds
      if 1 ≤ y ∧ 1 ≤ m ∧ m ≤ 12 ∧ 1 ≤ d ∧ d ≤ daysInMonth y m then
        some ⟨y, m, d⟩
      else none
    else none
  | _ => none

/-- Date parsing on a string, the form the coordinator and sensor call. -/
def parseDate (s : String) : Option Date :=
  parseDateChars s.toList

/-- The list comprehension
`[d for d in dates if datetime.strptime(d, "%Y-%m-%d").date() >= today]`
shared by coordinator._check_last_delivery and sensor.native_value:
keeps the dates on or after today, in source order; a malformed entry
raises ValueError, modelled as Except.error. -/
def filterFutureE : List String → Date → Except Unit (List String)
  | [], _ => .ok []
  | d :: rest, today =>
    match parseDate d with
    | none => .error ()
    | some pd =>
      match filterFutureE rest today with
      | .error e => .error e
      | .ok tail => .ok (if dateLe today pd then d :: tail else tail)

/-- Coordinator cached state dict: delivery_dates, last_updated (seconds
timestamp), last_delivery_date. -/
structure Snapshot where
  deliveryDates : List String
  lastUpdated : Int
  lastDeliveryDate : Option String
deriving DecidableEq, Repr

/-- Embedding of PostiDeliveryCoordinator._check_last_delivery: with no
cached data return None; with an empty previous date list return the
stored last_delivery_date; otherwise take the first previous date on or
after today and, if it parses strictly before today, return it, else
return the stored last_delivery_date. A ValueError from strptime is
Except.error. -/
def checkLastDelivery (data : Option Snapshot) (today : Date) :
    Except Unit (Option String) :=
  match data with
  | none => .ok none
  | some snap =>
    let ldd := snap.lastDeliveryDate
    if snap.deliveryDates.isEmpty then .ok ldd
    else
      match filterFutureE snap.deliveryDates today with
      | .error e => .error e
      | .ok futureDates =>
        match futureDates.head? with
        | none => .ok ldd
        | some prevNext =>
          match parseDate prevNext with
          | none => .error ()
          | some pd => if dateLt pd today then .ok (some prevNext) else .ok ldd

/-- DEFAULT_UPDATE_INTERVAL = timedelta(hours=12), in seconds. -/
def DEFAULT_UPDATE_INTERVAL : Int := 12 * 3600

/-- INITIAL_RANDOM_OFFSET_MAX = timedelta(minutes=30), in seconds. -/
def INITIAL_RANDOM_OFFSET_MAX : Int := 30 * 60

/-- UPDATE_JITTER_MAX = timedelta(minutes=2), in seconds. -/
def UPDATE_JITTER_MAX : Int := 2 * 60

/-- Modelled from the spec: RETRY_UPDATE_INTERVAL is imported by the
posti_delivery_dates coordinator but its value is absent from the
repository's const.py; the spec's failure-backoff rule gives the
reference value of 1 hour, a fixed interval strictly below the base. -/
def RETRY_UPDATE_INTERVAL : Int := 3600

/-- Outcome of one aiohttp GET against the Posti API as the coordinator
observes it: a transport-level ClientError, or a response carrying a
status code and a decoded body. The body is none when it is null, empty
or not a list; otherwise a list of entries, each either lacking the
deliveryDates key (none) or holding that key's list of date strings. -/
inductive FetchOutcome where
  | clientError
  | response (status : Nat) (body : Option (List (Option (List String))))
deriving DecidableEq, Repr

/-- The validation ladder in _async_update_data: non-200 status, missing
or empty body, first entry without deliveryDates, or an empty
deliveryDates list all raise UpdateFailed (none); otherwise the first
entry's delivery date list is returned. -/
def fetchToDates (f : FetchOutcome) : Option (List String) :=
  match f with
  | .clientError => none
  | .response status body =>
    if status ≠ 200 then none
    else
      match body with
      | none => none
      | some [] => none
      | some (entry :: _) =>
        match entry with
        | none => none
        | some ds => if ds.isEmpty then none else some ds

/-- Embedding of PostiDeliveryCoordinator._is_data_stale: stale when no
cached data, or when the age now - last_updated exceeds the base update
interval. -/
def isDataStale (data : Option Snapshot) (now : Int) : Bool :=
  match data with
  | none => true
  | some snap => decide (now - snap.lastUpdated > DEFAULT_UPDATE_INTERVAL)

/-- Mutable coordinator state: the cached data dict, the two first-cycle
flags, the DataUpdateCoordinator update_interval (seconds), and the
framework's last_update_success flag (false = the Failing phase, set
when _async_update_data raises UpdateFailed). -/
structure CoordState where
  data : Option Snapshot
  skipFirstUpdate : Bool
  firstUpdate : Bool
  updateInterval : Int
  lastUpdateSuccess : Bool
deriving DecidableEq, Repr

/-- The fetch half of posti_delivery_dates _async_update_data: clear the
first-update flag, validate the fetch outcome, run _check_last_delivery
on the pre-update data, and either store the new snapshot with the base
interval or leave data untouched with the retry interval on any raise
(UpdateFailed or the strptime ValueError folded by except Exception). -/
def doFetch (s : CoordState) (f : FetchOutcome) (today : Date) (now : Int) :
    CoordState :=
  let s1 := if s.firstUpdate then { s with firstUpdate := false } else s
  match fetchToDates f with
  | none => { s1 with updateInterval := RETRY_UPDATE_INTERVAL, lastUpdateSuccess := false }
  | some ds =>
    match checkLastDelivery s1.data today with
    | .error _ =>
      { s1 with updateInterval := RETRY_UPDATE_INTERVAL, lastUpdateSuccess := false }
    | .ok ldd =>
      { s1 with data := some ⟨ds, now, ldd⟩,
                updateInterval := DEFAULT_UPDATE_INTERVAL,
                lastUpdateSuccess := true }

/-- One cycle of posti_delivery_dates _async_update_data, also reporting
whether an API fetch was performed. The branch order mirrors the source:
the staleness test guarded by `not self._skip_first_update` falls through
to the fetch, the elif on _skip_first_update returns the cached data
without fetching, and every remaining path fetches. -/
def updateCycle (s : CoordState) (f : FetchOutcome) (today : Date) (now : Int) :
    CoordState × Bool :=
  if isDataStale s.data now && !s.skipFirstUpdate then
    (doFetch s f today now, true)
  else if s.skipFirstUpdate then
    ({ s with skipFirstUpdate := false, firstUpdate := false,
              lastUpdateSuccess := true }, false)
  else
    (doFetch s f today now, true)

/-- Inputs of one update cycle: the fetch outcome the network would
deliver, today's date, and the current timestamp. -/
structure CycleInput where
  fetch : FetchOutcome
  today : Date
  now : Int
deriving DecidableEq, Repr

/-- A sequence of update cycles of the posti_delivery_dates coordinator. -/
def runCycles (s : CoordState) (evs : List CycleInput) : CoordState :=
  evs.foldl (fun st e => (updateCycle st e.fetch e.today e.now).1) s

/-- One cycle of the posti_delivery variant's _async_update_data: the
seeded skip schedules base + a one-time offset draw, the first unseeded
cycle also applies the offset draw, every later cycle applies the
symmetric jitter draw, and the interval chosen at the top of the cycle
stays in place whether the fetch then succeeds or raises. The draws are
the randint results, passed in explicitly. -/
def pdUpdateCycle (s : CoordState) (f : FetchOutcome)
    (offsetDraw jitterDraw : Int) (now : Int) : CoordState × Bool :=
  if s.skipFirstUpdate then
    ({ s with skipFirstUpdate := false, firstUpdate := false,
              updateInterval := DEFAULT_UPDATE_INTERVAL + offsetDraw,
              lastUpdateSuccess := true }, false)
  else
    let s1 :=
      if s.firstUpdate then
        { s with firstUpdate := false,
                 updateInterval := DEFAULT_UPDATE_INTERVAL + offsetDraw }
      else
        { s with updateInterval := DEFAULT_UPDATE_INTERVAL + jitterDraw }
    match fetchToDates f with
    | none => ({ s1 with lastUpdateSuccess := false }, true)
    | some ds =>
      ({ s1 with data := some ⟨ds, now, none⟩, lastUpdateSuccess := true }, true)

/-- Embedding of PostiDeliverySensor.native_value: None without data or
with an empty date list, otherwise the first date in source order that
parses on or after today, or None when all dates are past; a malformed
entry raises ValueError out of the property (Except.error). -/
def nativeValue (data : Option Snapshot) (today : Date) :
    Except Unit (Option String) :=
  match data with
  | none => .ok none
  | some snap =>
    if snap.deliveryDates.isEmpty then .ok none
    else
      match filterFutureE snap.deliveryDates today with
      | .error e => .error e
      | .ok futureDates => .ok futureDates.head?

/-- Embedding of PostiDeliverySensor.available: the coordinator's
last_update_success flag, or cached data exists. -/
def availableFlag (s : CoordState) : Bool :=
  s.lastUpdateSuccess || s.data.isSome

/-- Python str.isspace characters stripped by str.strip(), over the
whitespace code points Python treats as space. -/
def pyIsSpace (c : Char) : Bool :=
  c.toNat ∈ [0x9, 0xa, 0xb, 0xc, 0xd, 0x1c, 0x1d, 0x1e, 0x1f, 0x20,
              0x85, 0xa0, 0x1680,
              0x2000, 0x2001, 0x2002, 0x2003, 0x2004, 0x2005, 0x2006,
              0x2007, 0x2008, 0x2009, 0x200a,
              0x2028, 0x2029, 0x202f, 0x205f, 0x3000]

/-- Python str.strip(): drop leading and trailing whitespace characters. -/
def pyStrip (s : String) : List Char :=
  (((s.toList.dropWhile pyIsSpace).reverse.dropWhile pyIsSpace).reverse)

/-- Unicode decimal-digit ranges (general category Nd), the character
class Python's re module matches for a bare backslash-d pattern without
re.ASCII; listed as inclusive code-point ranges. -/
def ndRanges : List (Nat × Nat) :=
  [(0x30, 0x39), (0x660, 0x669), (0x6f0, 0x6f9), (0x7c0, 0x7c9),
   (0x966, 0x96f), (0x9e6, 0x9ef), (0xa66, 0xa6f), (0xae6, 0xaef),
   (0xb66, 0xb6f), (0xbe6, 0xbef), (0xc66, 0xc6f), (0xce6, 0xcef),
   (0xd66, 0xd6f), (0xde6, 0xdef), (0xe50, 0xe59), (0xed0, 0xed9),
   (0xf20, 0xf29), (0x1040, 0x1049), (0x1090, 0x1099),
   (0x17e0, 0x17e9), (0x1810, 0x1819), (0x1946, 0x194f),
   (0x19d0, 0x19d9), (0x1a80, 0x1a89), (0x1a90, 0x1a99),
   (0x1b50, 0x1b59), (0x1bb0, 0x1bb9), (0x1c40, 0x1c49),
   (0x1c50, 0x1c59), (0xa620, 0xa629), (0xa8d0, 0xa8d9),
   (0xa900, 0xa909), (0xa9d0, 0xa9d9), (0xa9f0, 0xa9f9),
   (0xaa50, 0xaa59), (0xabf0, 0xabf9), (0xff10, 0xff19),
   (0x104a0, 0x104a9), (0x10d30, 0x10d39), (0x11066, 0x1106f),
   (0x110f0, 0x110f9), (0x11136, 0x1113f), (0x111d0, 0x111d9),
   (0x112f0, 0x112f9), (0x11450, 0x11459), (0x114d0, 0x114d9),
   (0x11650, 0x11659), (0x116c0, 0x116c9), (0x11730, 0x11739),
   (0x118e0, 0x118e9), (0x11950, 0x11959), (0x11c50, 0x11c59),
   (0x11d50, 0x11d59), (0x11da0, 0x11da9), (0x11f50, 0x11f59),
   (0x16a60, 0x16a69), (0x16ac0, 0x16ac9), (0x16b50, 0x16b59),
   (0x1d7ce, 0x1d7ff), (0x1e140, 0x1e149), (0x1e2f0, 0x1e2f9),
   (0x1e4f0, 0x1e4f9), (0x1e950, 0x1e959), (0x1fbf0, 0x1fbf9)]

/-- A character the regex token backslash-d accepts: any Unicode decimal
digit, not only the ASCII ones. -/
def pyIsRegexDigit (c : Char) : Bool :=
  ndRanges.any fun r => decide (r.1 ≤ c.toNat) && decide (c.toNat ≤ r.2)

/-- The re.match test of config_flow.validate_input with pattern
caret backslash-d times five dollar: five digit characters consume the
whole string, or five digit characters followed by one final newline,
which the dollar anchor also accepts. -/
def fiveDigitMatch (l : List Char) : Bool :=
  match l with
  | [a, b, c, d, e] =>
    pyIsRegexDigit a && pyIsRegexDigit b && pyIsRegexDigit c &&
      pyIsRegexDigit d && pyIsRegexDigit e
  | [a, b, c, d, e, f] =>
    pyIsRegexDigit a && pyIsRegexDigit b && pyIsRegexDigit c &&
      pyIsRegexDigit d && pyIsRegexDigit e && (f = '\n')
  | _ => false

/-- Embedding of the format gate in config_flow.validate_input: strip
the input, and raise InvalidPostalCode exactly when the five-digit regex
does not match the stripped string. -/
def raisesInvalidPostalCode (input : String) : Bool :=
  !fiveDigitMatch (pyStrip input)

/-- A character is an ASCII decimal digit, the reading the claim gives
to the accepted postal-code alphabet. -/
def isAsciiDigitChar (c : Char) : Bool :=
  decide ('0' ≤ c) && decide (c ≤ '9')

/-- A date string parses and lies on or after today: membership test of
the future partition stated over strings. -/
def isFutureDate (today : Date) (d : String) : Bool :=
  match parseDate d with
  | some pd => decide (dateLe today pd)
  | none => false

/-- One step of a running minimum over date strings, by parsed value. -/
def minDateStr (acc : Option String) (d : String) : Option String :=
  match acc with
  | none => some d
  | some m =>
    match parseDate d, parseDate m with
    | some pd, some pm => if dateLt pd pm then some d else some m
    | _, _ => some m

/-- Modelled from the spec: earliestFuture(dates, today) returns the
minimum of the future partition, or empty when that partition is empty;
stated over the date strings by comparing their parsed values, for the
refinement comparison with the sensor's first-in-order computation. -/
def earliestFutureSpec (dates : List String) (today : Date) : Option String :=
  (dates.filter (isFutureDate today)).foldl minDateStr none

/-- Dates-as-strings order used to state that a list is sorted
ascending: both parse and the first parsed date is not after the second. -/
def parsedLe (a b : String) : Prop :=
  match parseDate a, parseDate b with
  | some pa, some pb => dateLe pa pb
  | _, _ => False

instance (a b : String) : Decidable (parsedLe a b) := by
  unfold parsedLe
  cases parseDate a <;> cases parseDate b <;> simp <;> infer_instance

/-- Date order is asymmetric: a date on or before another is not also
strictly after it. -/
theorem dateLe_not_lt {a b : Date} (h : dateLe a b) : ¬ dateLt b a := by
  unfold dateLe dateLt at *
  rcases h with h | rfl
  · omega
  · omega

/-- Every member of a successful future partition parses to a date on or
after today. -/
theorem mem_filterFutureE_ok {ds : List String} {today : Date} {fs : List String}
    (h : filterFutureE ds today = .ok fs) {d : String} (hd : d ∈ fs) :
    ∃ pd, parseDate d = some pd ∧ dateLe today pd := by
  induction ds generalizing fs with
  | nil =>
    simp only [filterFutureE, Except.ok.injEq] at h
    subst h
    simp at hd
  | cons x xs ih =>
    simp only [filterFutureE] at h
    split at h
    · exact absurd h (by simp)
    · rename_i pd hp
      split at h
      · exact absurd h (by simp)
      · rename_i tail hrec
        by_cases hle : dateLe today pd
        · rw [if_pos hle] at h
          simp only [Except.ok.injEq] at h
          subst h
          rcases List.mem_cons.mp hd with hdx | hdt
          · subst hdx; exact ⟨pd, hp, hle⟩
          · exact ih hrec hdt
        · rw [if_neg hle] at h
          simp only [Except.ok.injEq] at h
          subst h
          exact ih hrec hd

/-- When _check_last_delivery returns without raising, its value is the
previously stored last_delivery_date: the update branch is unreachable,
since a date filtered to be on or after today is never before today. -/
theorem checkLastDelivery_ok_eq {data : Option Snapshot} {today : Date}
    {res : Option String} (h : checkLastDelivery data today = .ok res) :
    res = data.bind Snapshot.lastDeliveryDate := by
  cases data with
  | none =>
    simp only [checkLastDelivery, Except.ok.injEq] at h
    simp [← h]
  | some snap =>
    simp only [checkLastDelivery] at h
    split at h
    · simp only [Except.ok.injEq] at h
      simp [← h]
    · split at h
      · exact absurd h (by simp)
      · rename_i futureDates hf
        split at h
        · simp only [Except.ok.injEq] at h
          simp [← h]
        · rename_i prevNext hhead
          split at h
          · exact absurd h (by simp)
          · rename_i pd hp
            have hmem : prevNext ∈ futureDates := by
              cases futureDates with
              | nil => simp at hhead
              | cons a t =>
                simp only [List.head?, Option.some.injEq] at hhead
                exact hhead ▸ List.mem_cons_self a t
            obtain ⟨pd', hp', hle⟩ := mem_filterFutureE_ok hf hmem
            rw [hp] at hp'
            have hpe : pd = pd' := by injection hp'
            subst hpe
            have hnlt : ¬ dateLt pd today := dateLe_not_lt hle
            rw [if_neg hnlt] at h
            simp only [Except.ok.injEq] at h
            simp [← h]

/-- When every entry parses, the future filter succeeds and returns
exactly the entries on or after today, in source order. -/
theorem filterFutureE_of_wf {ds : List String} (today : Date)
    (h : ∀ d ∈ ds, (parseDate d).isSome) :
    filterFutureE ds today = .ok (ds.filter (isFutureDate today)) := by
  induction ds with
  | nil => rfl
  | cons x xs ih =>
    obtain ⟨pd, hp⟩ := Option.isSome_iff_exists.mp (h x (List.mem_cons_self x xs))
    have hrec := ih fun d hd => h d (List.mem_cons_of_mem x hd)
    simp only [filterFutureE, hp, hrec, List.filter_cons, isFutureDate]
    by_cases hle : dateLe today pd
    · simp [hp, hle]
    · simp [hp, hle]

/-- A single malformed entry anywhere in the list makes the future
filter raise. -/
theorem filterFutureE_of_malformed {ds : List String} (today : Date) {d : String}
    (hmem : d ∈ ds) (hbad : parseDate d = none) :
    filterFutureE ds today = .error () := by
  induction ds with
  | nil => simp at hmem
  | cons x xs ih =>
    rcases List.mem_cons.mp hmem with hx | hxs
    · subst hx
      simp [filterFutureE, hbad]
    · cases hp : parseDate x with
      | none => simp [filterFutureE, hp]
      | some pd => simp [filterFutureE, hp, ih hxs]

/-- Folding the running minimum from an element below the whole list
leaves that element in place. -/
theorem foldl_minDateStr_const {t : List String} {a : String}
    (h : ∀ b ∈ t, parsedLe a b) :
    t.foldl minDateStr (some a) = some a := by
  induction t with
  | nil => rfl
  | cons b t ih =>
    have hab := h b (List.mem_cons_self b t)
    have step : minDateStr (some a) b = some a := by
      unfold parsedLe at hab
      cases hpa : parseDate a with
      | none => rw [hpa] at hab; simp at hab
      | some pa =>
        cases hpb : parseDate b with
        | none => rw [hpa, hpb] at hab; simp at hab
        | some pb =>
          rw [hpa, hpb] at hab
          have hnlt : ¬ dateLt pb pa := dateLe_not_lt hab
          simp [minDateStr, hpa, hpb, if_neg hnlt]
    rw [List.foldl_cons, step]
    exact ih fun c hc => h c (List.mem_cons_of_mem b hc)

/-- On a list sorted ascending by parsed date, the running minimum is
the head. -/
theorem foldl_minDateStr_head {l : List String} (h : l.Pairwise parsedLe) :
    l.foldl minDateStr none = l.head? := by
  cases l with
  | nil => rfl
  | cons a t =>
    have ha : ∀ b ∈ t, parsedLe a b := (List.pairwise_cons.mp h).1
    show t.foldl minDateStr (minDateStr none a) = some a
    exact foldl_minDateStr_const ha

/-- Control flow of one posti_delivery_dates cycle: the cached snapshot
is returned without a fetch exactly when the seeded first-cycle skip is
pending, and every other cycle fetches; the staleness test never changes
which branch runs. -/
theorem updateCycle_eq (s : CoordState) (f : FetchOutcome) (today : Date) (now : Int) :
    updateCycle s f today now =
      if s.skipFirstUpdate then
        ({ s with skipFirstUpdate := false, firstUpdate := false,
                  lastUpdateSuccess := true }, false)
      else (doFetch s f today now, true) := by
  unfold updateCycle
  cases hskip : s.skipFirstUpdate <;> cases hst : isDataStale s.data now <;>
    simp [hskip, hst]

/-- A failed fetch leaves the cached data in place and schedules the
retry interval with the Failing flag. -/
theorem doFetch_fail {s : CoordState} {f : FetchOutcome} {today : Date} {now : Int}
    (hf : fetchToDates f = none) :
    (doFetch s f today now).data = s.data ∧
    (doFetch s f today now).updateInterval = RETRY_UPDATE_INTERVAL ∧
    (doFetch s f today now).lastUpdateSuccess = false := by
  unfold doFetch
  cases hfu : s.firstUpdate <;> simp [hfu, hf]

/-- A fetch whose reconciliation raises also leaves the cached data in
place and schedules the retry interval with the Failing flag. -/
theorem doFetch_checkErr {s : CoordState} {f : FetchOutcome} {today : Date}
    {now : Int} {ds : List String} (hf : fetchToDates f = some ds)
    (hc : checkLastDelivery s.data today = .error ()) :
    (doFetch s f today now).data = s.data ∧
    (doFetch s f today now).updateInterval = RETRY_UPDATE_INTERVAL ∧
    (doFetch s f today now).lastUpdateSuccess = false := by
  unfold doFetch
  cases hfu : s.firstUpdate <;> simp [hfu, hf, hc]

/-- A successful fetch stores the fetched dates with the current
timestamp and the reconciled last delivery, restores the base interval,
and clears the Failing flag. -/
theorem doFetch_ok {s : CoordState} {f : FetchOutcome} {today : Date}
    {now : Int} {ds : List String} {ldd : Option String}
    (hf : fetchToDates f = some ds)
    (hc : checkLastDelivery s.data today = .ok ldd) :
    (doFetch s f today now).data = some ⟨ds, now, ldd⟩ ∧
    (doFetch s f today now).updateInterval = DEFAULT_UPDATE_INTERVAL ∧
    (doFetch s f today now).lastUpdateSuccess = true := by
  unfold doFetch
  cases hfu : s.firstUpdate <;> simp [hfu, hf, hc]

/-- A cycle never discards cached data: data existence is preserved. -/
theorem updateCycle_data_isSome {s : CoordState} {f : FetchOutcome}
    {today : Date} {now : Int} (h : s.data.isSome = true) :
    ((updateCycle s f today now).1.data).isSome = true := by
  rw [updateCycle_eq]
  cases hskip : s.skipFirstUpdate
  · simp only [Bool.false_eq_true, if_false]
    cases hf : fetchToDates f with
    | none => rw [(doFetch_fail hf).1]; exact h
    | some ds =>
      cases hc : checkLastDelivery s.data today with
      | error e => cases e; rw [(doFetch_checkErr hf hc).1]; exact h
      | ok ldd => rw [(doFetch_ok hf hc).1]; rfl
  · simp [h]

/-- The stored last delivery of the cached snapshot, if any. -/
def lddOf (s : CoordState) : Option String :=
  s.data.bind Snapshot.lastDeliveryDate

/-- One cycle never empties a non-empty last delivery date. -/
theorem updateCycle_ldd_isSome {s : CoordState} {f : FetchOutcome}
    {today : Date} {now : Int} (h : (lddOf s).isSome = true) :
    (lddOf (updateCycle s f today now).1).isSome = true := by
  rw [updateCycle_eq]
  cases hskip : s.skipFirstUpdate
  · simp only [Bool.false_eq_true, if_false]
    cases hf : fetchToDates f with
    | none => unfold lddOf; rw [(doFetch_fail hf).1]; exact h
    | some ds =>
      cases hc : checkLastDelivery s.data today with
      | error e => cases e; unfold lddOf; rw [(doFetch_checkErr hf hc).1]; exact h
      | ok ldd =>
        unfold lddOf
        rw [(doFetch_ok hf hc).1]
        have he := checkLastDelivery_ok_eq hc
        show ldd.isSome = true
        rw [he]
        exact h
  · simpa [lddOf] using h

/-- Any sequence of cycles never empties a non-empty last delivery date. -/
theorem runCycles_ldd_isSome {s : CoordState} {evs : List CycleInput}
    (h : (lddOf s).isSome = true) : (lddOf (runCycles s evs)).isSome = true := by
  induction evs generalizing s with
  | nil => exact h
  | cons e evs ih =>
    simp only [runCycles, List.foldl_cons]
    exact ih (updateCycle_ldd_isSome h)

/-- Any sequence of cycles preserves the existence of cached data. -/
theorem runCycles_data_isSome {s : CoordState} (evs : List CycleInput)
    (h : s.data.isSome = true) : ((runCycles s evs).data).isSome = true := by
  induction evs generalizing s with
  | nil => exact h
  | cons e evs ih =>
    simp only [runCycles, List.foldl_cons]
    exact ih (updateCycle_data_isSome h)

/-- C1: in end-to-end scenario C the previous snapshot's only date
2025-06-01 has passed once today is 2025-06-02, yet _check_last_delivery
returns the unchanged empty last delivery date instead of "2025-06-01":
the comprehension keeps only dates on or after today, so the
passed-date branch can never fire. -/
theorem c1_reconciler_misses_passed_date :
    dateLt ⟨2025, 6, 1⟩ ⟨2025, 6, 2⟩ ∧
    checkLastDelivery (some ⟨["2025-06-01"], 0, none⟩) ⟨2025, 6, 2⟩ = .ok none :=
  ⟨by decide, by rfl⟩

/-- C2 counterexample: with the unsorted list ["2025-06-05","2025-06-01"]
and today 2025-05-30, native_value returns the first future date in
source order, 2025-06-05, not the minimum 2025-06-01 demanded by the
claim. -/
theorem c2_counterexample_unsorted :
    nativeValue (some ⟨["2025-06-05", "2025-06-01"], 0, none⟩) ⟨2025, 5, 30⟩ =
      .ok (some "2025-06-05") ∧
    earliestFutureSpec ["2025-06-05", "2025-06-01"] ⟨2025, 5, 30⟩ =
      some "2025-06-01" ∧
    ("2025-06-05" : String) ≠ "2025-06-01" :=
  ⟨by rfl, by rfl, by decide⟩

/-- C2 amended: native_value returns the first date in source order on
or after today; when the delivery-date list parses and is sorted
ascending by parsed date this equals the minimum of the future
partition, the spec's earliestFuture. -/
theorem c2_next_delivery_min_when_sorted (dates : List String) (lu : Int)
    (ldd : Option String) (today : Date)
    (hwf : ∀ d ∈ dates, (parseDate d).isSome = true)
    (hsorted : dates.Pairwise parsedLe) :
    nativeValue (some ⟨dates, lu, ldd⟩) today =
      .ok (earliestFutureSpec dates today) := by
  rcases dates with _ | ⟨x, xs⟩
  · rfl
  · have hfe := filterFutureE_of_wf today hwf
    simp only [nativeValue, hfe, List.isEmpty_cons, Bool.false_eq_true, if_false]
    unfold earliestFutureSpec
    rw [foldl_minDateStr_head (hsorted.filter (isFutureDate today))]

/-- C2 witness: on the sorted list of scenario E the sensor value is the
minimum future date. -/
theorem c2_witness :
    (∀ d ∈ ["2025-06-01", "2025-06-05"], (parseDate d).isSome = true) ∧
    List.Pairwise parsedLe ["2025-06-01", "2025-06-05"] ∧
    nativeValue (some ⟨["2025-06-01", "2025-06-05"], 0, none⟩) ⟨2025, 5, 30⟩ =
      .ok (earliestFutureSpec ["2025-06-01", "2025-06-05"] ⟨2025, 5, 30⟩) :=
  ⟨by decide, by decide,
    c2_next_delivery_min_when_sorted _ 0 none _ (by decide) (by decide)⟩

/-- C3 counterexample: a seeded coordinator whose cached snapshot is
already stale (age 43201 s > 43200 s base) still skips the first cycle:
no fetch happens and the cached snapshot is returned unchanged. -/
theorem c3_counterexample_stale_seeded_skip :
    isDataStale (some ⟨["2025-06-01"], 0, none⟩) 43201 = true ∧
    updateCycle
        ⟨some ⟨["2025-06-01"], 0, none⟩, true, true, DEFAULT_UPDATE_INTERVAL, true⟩
        (.response 200 (some [some ["2025-06-10"]])) ⟨2025, 6, 2⟩ 43201 =
      (⟨some ⟨["2025-06-01"], 0, none⟩, false, false, DEFAULT_UPDATE_INTERVAL, true⟩,
        false) :=
  ⟨by decide, by decide⟩

/-- C3 amended: a cycle performs an API fetch exactly when the seeded
first-cycle skip is not pending; staleness never changes whether a fetch
happens, since every non-skip cycle fetches and the skip wins even over
stale data. -/
theorem c3_fetch_iff_skip_not_pending (s : CoordState) (f : FetchOutcome)
    (today : Date) (now : Int) :
    (updateCycle s f today now).2 = !s.skipFirstUpdate := by
  rw [updateCycle_eq]
  cases hskip : s.skipFirstUpdate <;> simp [hskip]

/-- C4: after a successful non-first cycle, the scheduled wait lies in
the band base plus or minus jitterMax: in the posti_delivery variant it
is base plus the jitter draw from the inclusive range, and in the
posti_delivery_dates variant it is exactly the base interval, also
inside the band. -/
theorem c4_steady_wait_in_jitter_band :
    (∀ (s : CoordState) (f : FetchOutcome) (off j now : Int),
        s.skipFirstUpdate = false → s.firstUpdate = false →
        -UPDATE_JITTER_MAX ≤ j → j ≤ UPDATE_JITTER_MAX →
        (pdUpdateCycle s f off j now).1.lastUpdateSuccess = true →
        DEFAULT_UPDATE_INTERVAL - UPDATE_JITTER_MAX ≤
            (pdUpdateCycle s f off j now).1.updateInterval ∧
          (pdUpdateCycle s f off j now).1.updateInterval ≤
            DEFAULT_UPDATE_INTERVAL + UPDATE_JITTER_MAX) ∧
    (∀ (s : CoordState) (f : FetchOutcome) (today : Date) (now : Int),
        s.skipFirstUpdate = false →
        (updateCycle s f today now).1.lastUpdateSuccess = true →
        DEFAULT_UPDATE_INTERVAL - UPDATE_JITTER_MAX ≤
            (updateCycle s f today now).1.updateInterval ∧
          (updateCycle s f today now).1.updateInterval ≤
            DEFAULT_UPDATE_INTERVAL + UPDATE_JITTER_MAX) := by
  constructor
  · intro s f off j now hskip hfirst hj1 hj2 hsucc
    unfold pdUpdateCycle
    cases hf : fetchToDates f <;>
      simp only [hskip, hfirst, Bool.false_eq_true, if_false] <;>
      · unfold DEFAULT_UPDATE_INTERVAL UPDATE_JITTER_MAX at *
        omega
  · intro s f today now hskip hsucc
    rw [updateCycle_eq, if_neg (by simp [hskip])] at hsucc ⊢
    cases hf : fetchToDates f with
    | none =>
      rw [(doFetch_fail hf).2.2] at hsucc
      simp at hsucc
    | some ds =>
      cases hc : checkLastDelivery s.data today with
      | error e =>
        cases e
        rw [(doFetch_checkErr hf hc).2.2] at hsucc
        simp at hsucc
      | ok ldd =>
        rw [(doFetch_ok hf hc).2.1]
        unfold DEFAULT_UPDATE_INTERVAL UPDATE_JITTER_MAX
        omega

/-- C4 witness: a steady cycle of each variant lands inside the band, at
the extreme jitter draw 120 for the posti_delivery variant. -/
theorem c4_witness :
    (DEFAULT_UPDATE_INTERVAL - UPDATE_JITTER_MAX ≤
        (pdUpdateCycle ⟨none, false, false, 0, true⟩
            (.response 200 (some [some ["2025-06-10"]])) 0 120 0).1.updateInterval ∧
      (pdUpdateCycle ⟨none, false, false, 0, true⟩
          (.response 200 (some [some ["2025-06-10"]])) 0 120 0).1.updateInterval ≤
        DEFAULT_UPDATE_INTERVAL + UPDATE_JITTER_MAX) ∧
    (DEFAULT_UPDATE_INTERVAL - UPDATE_JITTER_MAX ≤
        (updateCycle ⟨none, false, false, 0, true⟩
            (.response 200 (some [some ["2025-06-10"]])) ⟨2025, 6, 2⟩ 0).1.updateInterval ∧
      (updateCycle ⟨none, false, false, 0, true⟩
          (.response 200 (some [some ["2025-06-10"]])) ⟨2025, 6, 2⟩ 0).1.updateInterval ≤
        DEFAULT_UPDATE_INTERVAL + UPDATE_JITTER_MAX) :=
  ⟨c4_steady_wait_in_jitter_band.1 _ _ 0 120 0 rfl rfl (by decide) (by decide) (by decide),
    c4_steady_wait_in_jitter_band.2 _ _ ⟨2025, 6, 2⟩ 0 rfl (by decide)⟩

/-- C5: any fetch failure on a fetching cycle raises UpdateFailed, so
the phase becomes Failing and the next wait is the fixed retry interval,
strictly shorter than the base interval and with no randomness in the
failure path. -/
theorem c5_failure_fixed_retry_interval (s : CoordState) (f : FetchOutcome)
    (today : Date) (now : Int) (hskip : s.skipFirstUpdate = false)
    (hf : fetchToDates f = none) :
    (updateCycle s f today now).1.lastUpdateSuccess = false ∧
    (updateCycle s f today now).1.updateInterval = RETRY_UPDATE_INTERVAL ∧
    RETRY_UPDATE_INTERVAL < DEFAULT_UPDATE_INTERVAL := by
  rw [updateCycle_eq, if_neg (by simp [hskip])]
  exact ⟨(doFetch_fail hf).2.2, (doFetch_fail hf).2.1, by decide⟩

/-- C5 witness: scenario D, an HTTP 500 response on a steady cycle. -/
theorem c5_witness :
    (⟨some ⟨["2025-06-01"], 0, none⟩, false, false, DEFAULT_UPDATE_INTERVAL, true⟩ :
        CoordState).skipFirstUpdate = false ∧
    fetchToDates (.response 500 (some [some ["2025-06-10"]])) = none ∧
    ((updateCycle ⟨some ⟨["2025-06-01"], 0, none⟩, false, false,
          DEFAULT_UPDATE_INTERVAL, true⟩ (.response 500 (some [some ["2025-06-10"]]))
          ⟨2025, 6, 2⟩ 50000).1.lastUpdateSuccess = false ∧
      (updateCycle ⟨some ⟨["2025-06-01"], 0, none⟩, false, false,
          DEFAULT_UPDATE_INTERVAL, true⟩ (.response 500 (some [some ["2025-06-10"]]))
          ⟨2025, 6, 2⟩ 50000).1.updateInterval = RETRY_UPDATE_INTERVAL ∧
      RETRY_UPDATE_INTERVAL < DEFAULT_UPDATE_INTERVAL) :=
  ⟨rfl, rfl, c5_failure_fixed_retry_interval _ _ ⟨2025, 6, 2⟩ 50000 rfl rfl⟩

/-- C6: over any sequence of update cycles, once the cached snapshot's
last delivery date is non-empty it never becomes empty again. -/
theorem c6_last_delivery_never_reverts (s : CoordState) (evs : List CycleInput)
    (h : (lddOf s).isSome = true) :
    (lddOf (runCycles s evs)).isSome = true :=
  runCycles_ldd_isSome h

/-- C6 witness: a non-empty last delivery date survives a transport
failure followed by a successful fetch. -/
theorem c6_witness :
    (lddOf ⟨some ⟨["2025-06-10"], 0, some "2025-06-01"⟩, false, false,
        DEFAULT_UPDATE_INTERVAL, true⟩).isSome = true ∧
    (lddOf (runCycles
        ⟨some ⟨["2025-06-10"], 0, some "2025-06-01"⟩, false, false,
          DEFAULT_UPDATE_INTERVAL, true⟩
        [⟨.clientError, ⟨2025, 6, 12⟩, 100⟩,
         ⟨.response 200 (some [some ["2025-06-20"]]), ⟨2025, 6, 13⟩, 200⟩])).isSome =
      true :=
  ⟨by rfl, c6_last_delivery_never_reverts _ _ (by rfl)⟩

/-- C7: a cycle that fetches and fails leaves the cached snapshot
exactly as it was, in every field, and only flips the success flag and
the scheduled interval. -/
theorem c7_failure_preserves_snapshot (s : CoordState) (f : FetchOutcome)
    (today : Date) (now : Int) (hskip : s.skipFirstUpdate = false)
    (hf : fetchToDates f = none) :
    (updateCycle s f today now).1.data = s.data ∧
    (updateCycle s f today now).1.lastUpdateSuccess = false := by
  rw [updateCycle_eq, if_neg (by simp [hskip])]
  exact ⟨(doFetch_fail hf).1, (doFetch_fail hf).2.2⟩

/-- C7 witness: a transport error leaves a concrete cached snapshot
untouched. -/
theorem c7_witness :
    (⟨some ⟨["2025-06-05", "2025-06-08"], 40000, some "2025-06-01"⟩, false, false,
        DEFAULT_UPDATE_INTERVAL, true⟩ : CoordState).skipFirstUpdate = false ∧
    fetchToDates .clientError = none ∧
    ((updateCycle ⟨some ⟨["2025-06-05", "2025-06-08"], 40000, some "2025-06-01"⟩,
          false, false, DEFAULT_UPDATE_INTERVAL, true⟩ .clientError
          ⟨2025, 6, 7⟩ 90000).1.data =
        some ⟨["2025-06-05", "2025-06-08"], 40000, some "2025-06-01"⟩ ∧
      (updateCycle ⟨some ⟨["2025-06-05", "2025-06-08"], 40000, some "2025-06-01"⟩,
          false, false, DEFAULT_UPDATE_INTERVAL, true⟩ .clientError
          ⟨2025, 6, 7⟩ 90000).1.lastUpdateSuccess = false) :=
  ⟨rfl, rfl, c7_failure_preserves_snapshot _ _ ⟨2025, 6, 7⟩ 90000 rfl rfl⟩

/-- C8: the published available flag is true exactly when the last
update succeeded or cached data exists; and once data exists, it stays
available through any further cycles, failures included. -/
theorem c8_available_iff_success_or_data :
    (∀ s : CoordState, availableFlag s = true ↔
        (s.lastUpdateSuccess = true ∨ s.data.isSome = true)) ∧
    (∀ (s : CoordState) (evs : List CycleInput), s.data.isSome = true →
        availableFlag (runCycles s evs) = true) := by
  constructor
  · intro s
    simp [availableFlag, Bool.or_eq_true]
  · intro s evs h
    have hd := runCycles_data_isSome evs h
    simp [availableFlag, hd]

/-- C8 witness: a coordinator already in the Failing phase with stale
cached data stays available through two further failures. -/
theorem c8_witness :
    ((⟨some ⟨["2025-06-01"], 0, none⟩, false, false, RETRY_UPDATE_INTERVAL, false⟩ :
        CoordState).data.isSome = true) ∧
    availableFlag (runCycles
        ⟨some ⟨["2025-06-01"], 0, none⟩, false, false, RETRY_UPDATE_INTERVAL, false⟩
        [⟨.clientError, ⟨2025, 6, 2⟩, 50000⟩,
         ⟨.response 500 none, ⟨2025, 6, 3⟩, 140000⟩]) = true :=
  ⟨rfl, c8_available_iff_success_or_data.2 _ _ rfl⟩

/-- C9 counterexample: one malformed entry makes the future partition
raise, and the sensor's value computation aborts with it, instead of
excluding the entry and keeping 2025-06-01. -/
theorem c9_counterexample_malformed_entry :
    filterFutureE ["2025-06-01", "junk"] ⟨2025, 5, 30⟩ = .error () ∧
    nativeValue (some ⟨["2025-06-01", "junk"], 0, none⟩) ⟨2025, 5, 30⟩ =
      .error () :=
  ⟨by rfl, by rfl⟩

/-- C9 amended: a malformed date string anywhere in the list aborts the
whole partitioning operation with a parse error, and the sensor value
computation propagates it, rather than excluding the malformed entry
and returning a result for the remaining well-formed dates. -/
theorem c9_malformed_aborts_partition (dates : List String) (lu : Int)
    (ldd : Option String) (today : Date) (d : String)
    (hmem : d ∈ dates) (hbad : parseDate d = none) :
    filterFutureE dates today = .error () ∧
    (dates ≠ [] → nativeValue (some ⟨dates, lu, ldd⟩) today = .error ()) := by
  have herr := filterFutureE_of_malformed today hmem hbad
  refine ⟨herr, fun hne => ?_⟩
  rcases dates with _ | ⟨x, xs⟩
  · exact absurd rfl hne
  · simp only [nativeValue, herr, List.isEmpty_cons, Bool.false_eq_true, if_false]

/-- C9 witness: a list with a malformed second entry aborts at a
concrete input. -/
theorem c9_witness :
    ("bad-date" ∈ ["2025-07-01", "bad-date"]) ∧
    parseDate "bad-date" = none ∧
    filterFutureE ["2025-07-01", "bad-date"] ⟨2025, 6, 1⟩ = .error () ∧
    nativeValue (some ⟨["2025-07-01", "bad-date"], 77, none⟩) ⟨2025, 6, 1⟩ =
      .error () := by
  have h := c9_malformed_aborts_partition ["2025-07-01", "bad-date"] 77 none
    ⟨2025, 6, 1⟩ "bad-date" (by decide) (by rfl)
  exact ⟨by decide, by rfl, h.1, h.2 (by decide)⟩

/-- The head surviving a dropWhile fails the dropped predicate. -/
theorem dropWhile_head_false {p : Char → Bool} (l : List Char) :
    ∀ c ∈ (l.dropWhile p).head?, p c = false := by
  intro c hc
  induction l with
  | nil => simp [List.dropWhile] at hc
  | cons x xs ih =>
    rw [List.dropWhile_cons] at hc
    split at hc
    · exact ih hc
    · simp_all

/-- Stripping leaves no trailing whitespace character. -/
theorem pyStrip_getLast_not_space (s : String) :
    ∀ c ∈ (pyStrip s).getLast?, pyIsSpace c = false := by
  intro c hc
  unfold pyStrip at hc
  rw [List.getLast?_reverse] at hc
  exact dropWhile_head_false _ c hc

/-- On a list without a trailing whitespace character, the anchored
five-digit regex matches exactly the strings of five digit characters:
the dollar-before-final-newline alternative can never fire. -/
theorem fiveDigitMatch_eq_of_last {l : List Char}
    (hlast : ∀ c ∈ l.getLast?, pyIsSpace c = false) :
    fiveDigitMatch l = true ↔
      (l.length = 5 ∧ ∀ c ∈ l, pyIsRegexDigit c = true) := by
  match l with
  | [] => simp [fiveDigitMatch]
  | [a] => simp [fiveDigitMatch]
  | [a, b] => simp [fiveDigitMatch]
  | [a, b, c] => simp [fiveDigitMatch]
  | [a, b, c, d] => simp [fiveDigitMatch]
  | [a, b, c, d, e] =>
    simp [fiveDigitMatch, and_assoc]
  | [a, b, c, d, e, f] =>
    have hf : pyIsSpace f = false := hlast f (by rfl)
    have hfn : ¬(f = '\n') := by
      intro heq
      subst heq
      simp [pyIsSpace] at hf
    simp [fiveDigitMatch, hfn]
  | a :: b :: c :: d :: e :: f :: g :: rest =>
    simp only [fiveDigitMatch, List.length_cons, Bool.false_eq_true, false_iff,
      not_and]
    intro hlen
    exact absurd hlen (by omega)

/-- C10 amended: validate_input raises InvalidPostalCode exactly when
the stripped input is not five Unicode decimal-digit characters; the
regex digit class is Unicode-wide, so non-ASCII decimal digits are also
accepted (the claim's ASCII restriction is what fails). -/
theorem c10_invalid_postal_iff_not_five_digits (input : String) :
    raisesInvalidPostalCode input = true ↔
      ¬((pyStrip input).length = 5 ∧
        ∀ c ∈ pyStrip input, pyIsRegexDigit c = true) := by
  have h := fiveDigitMatch_eq_of_last (pyStrip_getLast_not_space input)
  unfold raisesInvalidPostalCode
  constructor
  · intro hr hP
    rw [h.mpr hP] at hr
    simp at hr
  · intro hP
    cases hm : fiveDigitMatch (pyStrip input) with
    | false => rfl
    | true => exact absurd (h.mp hm) hP

/-- C10 counterexample: five Arabic-Indic digits strip to five non-ASCII
characters, so the claim requires InvalidPostalCode to be raised, but
the code's Unicode digit class accepts them and does not raise. -/
theorem c10_counterexample_nonascii_digits :
    raisesInvalidPostalCode "٠١٢٣٤" = false ∧
    (pyStrip "٠١٢٣٤").length = 5 ∧
    (pyStrip "٠١٢٣٤").all isAsciiDigitChar = false :=
  ⟨by decide, by decide, by decide⟩

end Posti
